import Mathlib

/-!
Shallow embedding of scripts/query_api_example.py, a client script for the
DBNotebook Query API.  JSON values exchanged with the server are modelled by
PyVal; numbers are modelled as integers (the claims under study never depend
on fractional values).  Console output and HTTP traffic are modelled as an
event trace.  Nondeterministic inputs of the script (HTTP responses, the
generated session UUID, environment variables, CLI flags) are passed as
explicit parameters.
-/

/-- A Python/JSON value as handled by the script. -/
inductive PyVal where
  | str : String → PyVal
  | int : Int → PyVal
  | bool : Bool → PyVal
  | list : List PyVal → PyVal
  | dict : List (String × PyVal) → PyVal

mutual

/-- Python str() of a value, as interpolated into f-strings.  For lists and
dicts the rendering is simplified (Python would use repr of the elements,
quoting strings); no claim depends on printing a composite value. -/
def pyStr : PyVal → String
  | .str s => s
  | .int n => toString n
  | .bool b => cond b "True" "False"
  | .list xs => "[" ++ pyStrList xs ++ "]"
  | .dict kvs => "\x7b" ++ pyStrDict kvs ++ "\x7d"

def pyStrList : List PyVal → String
  | [] => ""
  | [x] => pyStr x
  | x :: y :: xs => pyStr x ++ ", " ++ pyStrList (y :: xs)

def pyStrDict : List (String × PyVal) → String
  | [] => ""
  | [(kk, v)] => kk ++ ": " ++ pyStr v
  | (kk, v) :: y :: xs => kk ++ ": " ++ pyStr v ++ ", " ++ pyStrDict (y :: xs)

end

/-- Python truthiness of a value. -/
def pyTruthy : PyVal → Bool
  | .str s => !(s == "")
  | .int n => !(n == 0)
  | .bool b => b
  | .list xs => !xs.isEmpty
  | .dict kvs => !kvs.isEmpty

/-- dict.get(k, dflt).  The script only ever calls .get on JSON objects; a
non-dict receiver (which Python would reject with AttributeError) is mapped
to the default, a case no claim exercises. -/
def pyGet (v : PyVal) (k : String) (dflt : PyVal) : PyVal :=
  match v with
  | .dict kvs => (kvs.lookup k).getD dflt
  | _ => dflt

/-- d[k] bracket access: raises KeyError when the key is absent. -/
def pyIndex (v : PyVal) (k : String) : Except String PyVal :=
  match v with
  | .dict kvs =>
    match kvs.lookup k with
    | some x => .ok x
    | none => .error ("KeyError: " ++ k)
  | _ => .error "TypeError: value is not subscriptable"

/-- x[:n] slicing: defined on strings and lists, raises TypeError otherwise. -/
def pySlice (n : Nat) : PyVal → Except String PyVal
  | .str s => .ok (.str (s.take n))
  | .list xs => .ok (.list (xs.take n))
  | _ => .error "TypeError: value is not subscriptable"

/-- Elements of a JSON array; the script only iterates over arrays. -/
def pyAsList : PyVal → List PyVal
  | .list xs => xs
  | _ => []

/-- Entries of a JSON object, in insertion order (dict.items()). -/
def pyDictItems : PyVal → List (String × PyVal)
  | .dict kvs => kvs
  | _ => []

/-- len() of a value (only reached on strings/lists/dicts in the script). -/
def pyLen : PyVal → Nat
  | .str s => s.length
  | .list xs => xs.length
  | .dict kvs => kvs.length
  | _ => 0

/-- Formatting a value with the :.3f format specifier.  Ints (and bools,
which are int subclasses) format as fixed-point; a string raises ValueError
and other objects raise TypeError, exactly as in Python. -/
def formatFixed3 : PyVal → Except String String
  | .int n => .ok (toString n ++ ".000")
  | .bool b => .ok (cond b "1.000" "0.000")
  | .str _ => .error "ValueError: unknown format code f for object of type str"
  | _ => .error "TypeError: unsupported format string"

/-- str.title(): uppercase every letter that follows a non-letter, lowercase
the rest. -/
def titleGo : Bool → List Char → List Char
  | _, [] => []
  | prevAlpha, c :: cs =>
    if c.isAlpha then
      (if prevAlpha then c.toLower else c.toUpper) :: titleGo true cs
    else
      c :: titleGo false cs

def pyTitle (s : String) : String :=
  String.mk (titleGo false s.data)

/-- Truthiness of an Optional[str] argument (None or empty string is falsy). -/
def optStrTruthy : Option String → Bool
  | none => false
  | some s => !(s == "")

/-- Truthiness of an Optional[int] argument (None or zero is falsy). -/
def optIntTruthy : Option Int → Bool
  | none => false
  | some n => !(n == 0)

/-- Python equality test of a str needle against an arbitrary value, as used
by the membership check notebook_id not in [nb[id] for nb in notebooks]. -/
def pyStrEq (s : String) : PyVal → Bool
  | .str t => s == t
  | _ => false

/-- An HTTP response as seen through the requests library: status_code,
text (raw body) and the decoded JSON body. -/
structure HttpResponse where
  status : Int
  text : String
  json : PyVal

/-- Observable events of a run: console prints, HTTP requests (with the URL
and the X-API-Key header value) and session-UUID generation. -/
inductive Event where
  | getReq (url apiKey : String)
  | postReq (url apiKey : String) (payload : List (String × PyVal))
  | genSessionId (sid : String)
  | print (s : String)

/-- The payloads of the POST /api/query requests of a trace, in order. -/
def postPayloads (evs : List Event) : List (List (String × PyVal)) :=
  evs.filterMap fun e =>
    match e with
    | .postReq _ _ p => some p
    | _ => none

/-- The session identifiers generated during a trace, in order. -/
def genIds (evs : List Event) : List String :=
  evs.filterMap fun e =>
    match e with
    | .genSessionId s => some s
    | _ => none

/-- Presence of a key in a JSON-object payload. -/
def hasKey (p : List (String × PyVal)) (k : String) : Bool :=
  (p.lookup k).isSome

/-- The 60-character banner line of "=" used by the script. -/
def bar60 : String := String.mk (List.replicate 60 '=')

/-- The 60-character separator line used by the script. -/
def dash60 : String := String.mk (List.replicate 60 '─')

/-- Module-level default for BASE_URL: os.getenv with a fallback. -/
def BASE_URL (env : Option String) : String :=
  env.getD "http://localhost:7860"

/-- Module-level default for API_KEY: os.getenv with a fallback. -/
def API_KEY (env : Option String) : String :=
  env.getD "dbn_00000000000000000000000000000001"

/-- Module-level default for NOTEBOOK_ID: os.getenv with a fallback. -/
def NOTEBOOK_ID (env : Option String) : String :=
  env.getD "18ee0c23-a2ce-4eb2-a56c-62a12dee964a"

/-- args.url after parse_args: the --url flag when given, else the module
default computed from the environment. -/
def parseArgsUrl (cli env : Option String) : String :=
  cli.getD (BASE_URL env)

/-- args.api_key after parse_args: the --api-key flag when given, else the
module default computed from the environment. -/
def parseArgsApiKey (cli env : Option String) : String :=
  cli.getD (API_KEY env)

/-- args.notebook after parse_args: the --notebook flag when given, else the
module default computed from the environment. -/
def parseArgsNotebook (cli env : Option String) : String :=
  cli.getD (NOTEBOOK_ID env)

/-- The AVAILABLE_MODELS catalog, providers in insertion order. -/
def AVAILABLE_MODELS : List (String × List String) :=
  [("openai", ["gpt-4.1-mini", "gpt-4.1", "gpt-4o", "gpt-4o-mini"]),
   ("groq", ["meta-llama/llama-4-maverick-17b-128e-instruct",
             "llama-3.3-70b-versatile"]),
   ("ollama", ["llama3.1:latest", "mistral:latest", "qwen2.5:latest"]),
   ("anthropic", ["claude-sonnet-4-20250514", "claude-3-5-haiku-latest"]),
   ("gemini", ["gemini-2.0-flash", "gemini-1.5-pro"])]

/-- list_models(): print the model catalog grouped by provider. -/
def list_models : List Event :=
  (["\n" ++ bar60, "Available Models", bar60]
    ++ (AVAILABLE_MODELS.map fun pm =>
          ("\n" ++ pm.1.toUpper ++ ":") :: pm.2.map (fun m => "  - " ++ m)).flatten
    ++ [""]).map Event.print

/-- The per-notebook print loop of list_notebooks.  Printed lines accumulate
until a KeyError (missing field) aborts the loop. -/
def notebookLines : List PyVal → List String × Option String
  | [] => ([], none)
  | nb :: rest =>
    match pyIndex nb "id" with
    | .error e => ([], some e)
    | .ok idv =>
      match pyIndex nb "name" with
      | .error e => (["  ID: " ++ pyStr idv], some e)
      | .ok namev =>
        match pyIndex nb "document_count" with
        | .error e => (["  ID: " ++ pyStr idv, "  Name: " ++ pyStr namev], some e)
        | .ok dcv =>
          match pyIndex nb "created_at" with
          | .error e =>
            (["  ID: " ++ pyStr idv, "  Name: " ++ pyStr namev,
              "  Documents: " ++ pyStr dcv], some e)
          | .ok cav =>
            let hd := ["  ID: " ++ pyStr idv, "  Name: " ++ pyStr namev,
                       "  Documents: " ++ pyStr dcv, "  Created: " ++ pyStr cav, ""]
            let (tl, err) := notebookLines rest
            (hd ++ tl, err)

/-- list_notebooks(): GET /api/query/notebooks; on a non-200 status print the
status and body and return []; on success print each notebook and return the
decoded list.  A missing field while printing is an uncaught KeyError. -/
def list_notebooks (baseUrl apiKey : String) (resp : HttpResponse) :
    List Event × Except String (List PyVal) :=
  let hdr := (["\n" ++ bar60, "Listing Available Notebooks", bar60]).map Event.print
  let getE := Event.getReq (baseUrl ++ "/api/query/notebooks") apiKey
  if !(resp.status == 200) then
    (hdr ++ [getE,
      .print ("Error: " ++ toString resp.status ++ " - " ++ resp.text)], .ok [])
  else
    let notebooks := pyAsList (pyGet resp.json "notebooks" (.list []))
    let countLine := "\nFound " ++ toString notebooks.length ++ " notebook(s):\n"
    let (ls, err) := notebookLines notebooks
    match err with
    | some e => (hdr ++ [getE] ++ ((countLine :: ls).map Event.print), .error e)
    | none => (hdr ++ [getE] ++ ((countLine :: ls).map Event.print), .ok notebooks)

/-- The lines printed by query_stateless before the request is issued. -/
def statelessPreamble (query : String) (model : Option String)
    (top_k : Option Int) (reranker_enabled skip_raptor : Bool) : List String :=
  ["\n" ++ bar60, "Stateless Query (No Memory)", bar60, "Query: " ++ query]
  ++ (match model with
      | some m => if !(m == "") then ["Model: " ++ m] else []
      | none => [])
  ++ (match top_k with
      | some kk => if !(kk == 0) then ["Top-K: " ++ toString kk] else []
      | none => [])
  ++ (if reranker_enabled then [] else ["Reranker: disabled"])
  ++ (if skip_raptor then [] else ["RAPTOR: enabled"])

/-- The JSON body built by query_stateless: four unconditional fields, then
model / top_k added when truthy, and reranker_enabled / skip_raptor added
as false when disabled. -/
def statelessPayload (notebook_id : PyVal) (query : String)
    (model : Option String) (top_k : Option Int) (max_sources : Int)
    (reranker_enabled skip_raptor : Bool) : List (String × PyVal) :=
  [("notebook_id", notebook_id), ("query", .str query),
   ("include_sources", .bool true), ("max_sources", .int max_sources)]
  ++ (match model with
      | some m => if !(m == "") then [("model", PyVal.str m)] else []
      | none => [])
  ++ (match top_k with
      | some kk => if !(kk == 0) then [("top_k", PyVal.int kk)] else []
      | none => [])
  ++ (if reranker_enabled then [] else [("reranker_enabled", PyVal.bool false)])
  ++ (if skip_raptor then [] else [("skip_raptor", PyVal.bool false)])

/-- Rendering of one source entry: the filename line always prints; the score
line formats src.get(score, the string N/A) with :.3f, which raises when the
score is absent or not a number; then the snippet line prints. -/
def renderSourceLines (i : Nat) (src : PyVal) : List String × Option String :=
  let l1 := "\n  [" ++ toString i ++ "] " ++ pyStr (pyGet src "filename" (.str "Unknown"))
  match formatFixed3 (pyGet src "score" (.str "N/A")) with
  | .error e => ([l1], some e)
  | .ok sc =>
    match pySlice 200 (pyGet src "snippet" (.str "")) with
    | .error e => ([l1, "      Score: " ++ sc], some e)
    | .ok sn =>
      ([l1, "      Score: " ++ sc, "      Snippet: " ++ pyStr sn ++ "..."], none)

/-- The enumerate(sources, 1) print loop over source entries. -/
def renderSourcesFrom (i : Nat) : List PyVal → List String × Option String
  | [] => ([], none)
  | s :: rest =>
    let (ls, err) := renderSourceLines i s
    match err with
    | some e => (ls, some e)
    | none =>
      let (tl, err2) := renderSourcesFrom (i + 1) rest
      (ls ++ tl, err2)

/-- Humanization of a timing-stage key: drop the _ms suffix text, replace
underscores with spaces, title-case. -/
def stageName (k : String) : String :=
  pyTitle ((k.replace "_ms" "").replace "_" " ")

/-- Insertion into a key-sorted association list (sorted(timings.items())). -/
def insertKv (kv : String × PyVal) :
    List (String × PyVal) → List (String × PyVal)
  | [] => [kv]
  | hd :: tl => if kv.1 ≤ hd.1 then kv :: hd :: tl else hd :: insertKv kv tl

/-- Sorting of dict items by key. -/
def sortKvs : List (String × PyVal) → List (String × PyVal)
  | [] => []
  | hd :: tl => insertKv hd (sortKvs tl)

/-- All lines printed by query_stateless for a 200 response, together with
the exception aborting the rendering, when one is raised. -/
def renderStatelessLines (result : PyVal) : List String × Option String :=
  let head := ["\n" ++ dash60, "Response:", dash60,
               pyStr (pyGet result "response" (.str "No response"))]
  let metadata := pyGet result "metadata" (.dict [])
  let metaLines := ["\n" ++ dash60, "Metadata:",
    "  Execution time: " ++ pyStr (pyGet metadata "execution_time_ms" (.str "N/A")) ++ "ms",
    "  Model: " ++ pyStr (pyGet metadata "model" (.str "N/A")),
    "  Stateless: " ++ pyStr (pyGet metadata "stateless" (.str "N/A")),
    "  Node count: " ++ pyStr (pyGet metadata "node_count" (.str "N/A"))]
  let timings := pyGet metadata "timings" (.dict [])
  let timingLines :=
    if pyTruthy timings then
      "\n  Timing Breakdown:" ::
        (sortKvs (pyDictItems timings)).map
          (fun kv => "    " ++ stageName kv.1 ++ ": " ++ pyStr kv.2 ++ "ms")
    else []
  let sources := pyGet result "sources" (.list [])
  if pyTruthy sources then
    let srcHdr := ["\n" ++ dash60, "Sources (" ++ toString (pyLen sources) ++ "):"]
    let (srcLines, err) := renderSourcesFrom 1 (pyAsList sources)
    (head ++ metaLines ++ timingLines ++ srcHdr ++ srcLines, err)
  else
    (head ++ metaLines ++ timingLines, none)

/-- query_stateless: print the preamble, POST the payload once; on a non-200
status print the status and body and return None; on success render the
result (a rendering exception propagates as Except.error). -/
def query_stateless (baseUrl apiKey : String) (notebook_id : PyVal)
    (query : String) (model : Option String) (top_k : Option Int)
    (max_sources : Int) (reranker_enabled skip_raptor : Bool)
    (resp : HttpResponse) : List Event × Except String (Option PyVal) :=
  let pre := (statelessPreamble query model top_k reranker_enabled skip_raptor).map Event.print
  let payload := statelessPayload notebook_id query model top_k max_sources
                   reranker_enabled skip_raptor
  let postE := Event.postReq (baseUrl ++ "/api/query") apiKey payload
  if !(resp.status == 200) then
    (pre ++ [postE,
      .print ("\nError: " ++ toString resp.status ++ " - " ++ resp.text)], .ok none)
  else
    let (ls, err) := renderStatelessLines resp.json
    match err with
    | some e => (pre ++ [postE] ++ ls.map Event.print, .error e)
    | none => (pre ++ [postE] ++ ls.map Event.print, .ok (some resp.json))

/-- The JSON body built for one conversational turn: six unconditional
fields (max_sources fixed at 2), then model added when truthy. -/
def conversationalPayload (notebook_id : PyVal) (query session_id : String)
    (model : Option String) (max_history : Int) : List (String × PyVal) :=
  [("notebook_id", notebook_id), ("query", .str query),
   ("session_id", .str session_id), ("include_sources", .bool true),
   ("max_sources", .int 2), ("max_history", .int max_history)]
  ++ (match model with
      | some m => if !(m == "") then [("model", PyVal.str m)] else []
      | none => [])

/-- The lines printed for one successful conversational turn.  The response
text is sliced to 500 characters before printing, which raises on a
non-sliceable value. -/
def renderConvLines (result : PyVal) : List String × Option String :=
  let metadata := pyGet result "metadata" (.dict [])
  match pySlice 500 (pyGet result "response" (.str "No response")) with
  | .error e => ([], some e)
  | .ok r =>
    (["\nResponse: " ++ pyStr r ++ "...",
      "\nHistory used: " ++ pyStr (pyGet metadata "history_messages_used" (.int 0)) ++ " messages",
      "Stateless: " ++ pyStr (pyGet metadata "stateless" (.str "N/A")),
      "Execution time: " ++ pyStr (pyGet metadata "execution_time_ms" (.str "N/A")) ++ "ms"], none)

/-- A turn whose processing cannot raise: either it fails (non-200, which the
loop only logs) or its successful rendering raises no exception. -/
def convTurnOk (r : HttpResponse) : Bool :=
  if r.status == 200 then ((renderConvLines r.json).2).isNone else true

/-- The turn loop of query_conversational: i is the 1-based display index,
resps supplies the response to each remaining turn (resps 0 answers the
current turn).  A non-200 turn prints the status and body and continues. -/
def convLoop (baseUrl apiKey : String) (notebook_id : PyVal)
    (model : Option String) (max_history : Int) (session_id : String) :
    Nat → List String → (Nat → HttpResponse) → List Event × Option String
  | _, [], _ => ([], none)
  | i, q :: rest, resps =>
    let hdr := (["\n" ++ dash60, "Turn " ++ toString i ++ ": " ++ q, dash60]).map Event.print
    let payload := conversationalPayload notebook_id q session_id model max_history
    let postE := Event.postReq (baseUrl ++ "/api/query") apiKey payload
    let r := resps 0
    if !(r.status == 200) then
      let (tl, err) := convLoop baseUrl apiKey notebook_id model max_history
                         session_id (i + 1) rest (fun n => resps (n + 1))
      (hdr ++ [postE,
        .print ("Error: " ++ toString r.status ++ " - " ++ r.text)] ++ tl, err)
    else
      match renderConvLines r.json with
      | (ls, some e) => (hdr ++ [postE] ++ ls.map Event.print, some e)
      | (ls, none) =>
        let (tl, err) := convLoop baseUrl apiKey notebook_id model max_history
                           session_id (i + 1) rest (fun n => resps (n + 1))
        (hdr ++ [postE] ++ ls.map Event.print ++ tl, err)

/-- query_conversational: generate one session id, print the header, then
issue every query of the list in order through the turn loop. -/
def query_conversational (baseUrl apiKey : String) (notebook_id : PyVal)
    (queries : List String) (model : Option String) (max_history : Int)
    (session_id : String) (resps : Nat → HttpResponse) :
    List Event × Option String :=
  let hdr1 := (["\n" ++ bar60, "Conversational Queries (With Memory)", bar60]).map Event.print
  let hdr2 := [Event.genSessionId session_id,
               Event.print ("Session ID: " ++ session_id)]
  let hdr3 := ((match model with
                | some m => if !(m == "") then ["Model: " ++ m] else []
                | none => [])
               ++ ["Max History: " ++ toString max_history]).map Event.print
  let (tl, err) := convLoop baseUrl apiKey notebook_id model max_history
                     session_id 1 queries resps
  (hdr1 ++ hdr2 ++ hdr3 ++ tl, err)

/-- The parsed command-line arguments, after defaulting. -/
structure Args where
  model : Option String
  notebook : String
  query : Option String
  url : String
  api_key : String
  list_models : Bool
  list_notebooks : Bool
  no_demo : Bool
  top_k : Option Int
  max_sources : Int
  no_reranker : Bool
  include_raptor : Bool
  max_history : Int

/-- The list comprehension [nb[id] for nb in notebooks]: every element is
indexed, and a missing id key raises. -/
def extractIds : List PyVal → Except String (List PyVal)
  | [] => .ok []
  | nb :: rest => do
    let v ← pyIndex nb "id"
    let vs ← extractIds rest
    .ok (v :: vs)

/-- The three fixed demo conversation queries of main. -/
def demoQueries : List String :=
  ["What is the work from home policy?",
   "What are the eligibility requirements for it?",
   "Are there any exceptions to this policy?"]

/-- The closing banner printed at the end of a demo run. -/
def finalBlock : List Event :=
  (["\n" ++ bar60, "Example Complete!", bar60]).map Event.print

/-- The demo part of main: unless --no-demo, one stateless demo query
followed by the three-turn conversation; then the closing banner.  idx is
the index of the next unread response in qresps. -/
def mainDemo (args : Args) (nbId : PyVal) (qresps : Nat → HttpResponse)
    (sid : String) (idx : Nat) : List Event × Except String Unit :=
  if args.no_demo then (finalBlock, .ok ())
  else
    let (e2, r2) := query_stateless args.url args.api_key nbId
      "What are the key policies mentioned in the documents?" args.model
      args.top_k args.max_sources (!args.no_reranker) (!args.include_raptor)
      (qresps idx)
    match r2 with
    | .error e => (e2, .error e)
    | .ok _ =>
      let (e3, x3) := query_conversational args.url args.api_key nbId
        demoQueries args.model args.max_history sid
        (fun n => qresps (idx + 1 + n))
      match x3 with
      | some e => (e2 ++ e3, .error e)
      | none => (e2 ++ e3 ++ finalBlock, .ok ())

/-- The query-issuing part of main after notebook resolution: the optional
ad-hoc --query (returning early under --no-demo), then the demo. -/
def mainQueries (args : Args) (nbId : PyVal) (qresps : Nat → HttpResponse)
    (sid : String) : List Event × Except String Unit :=
  match args.query with
  | some q =>
    if !(q == "") then
      let (e1, r1) := query_stateless args.url args.api_key nbId q args.model
        args.top_k args.max_sources (!args.no_reranker) (!args.include_raptor)
        (qresps 0)
      match r1 with
      | .error e => (e1, .error e)
      | .ok _ =>
        if args.no_demo then
          (e1 ++ (["\n" ++ bar60, "Query Complete!", bar60]).map Event.print, .ok ())
        else
          let (de, dr) := mainDemo args nbId qresps sid 1
          (e1 ++ de, dr)
    else mainDemo args nbId qresps sid 0
  | none => mainDemo args nbId qresps sid 0

/-- main(): handle the list-only flags, print the run header, list the
notebooks, resolve the notebook id (falling back to the first listed id,
with a printed notice, when the requested id is absent), then run the
queries.  listResp answers the notebook listing, qresps the successive
POST /api/query requests, sid is the session UUID generated for the demo
conversation. -/
def mainRun (args : Args) (listResp : HttpResponse)
    (qresps : Nat → HttpResponse) (sid : String) :
    List Event × Except String Unit :=
  if args.list_models then (list_models, .ok ())
  else if args.list_notebooks then
    ((list_notebooks args.url args.api_key listResp).1, .ok ())
  else
    let hdr := ([bar60, "DBNotebook Query API Example", bar60,
                 "API URL: " ++ args.url, "Notebook ID: " ++ args.notebook]
                ++ (match args.model with
                    | some m => if !(m == "") then ["Model: " ++ m] else []
                    | none => [])).map Event.print
    let lnE := (list_notebooks args.url args.api_key listResp).1
    match (list_notebooks args.url args.api_key listResp).2 with
    | .error e => (hdr ++ lnE, .error e)
    | .ok nbs =>
      if nbs.isEmpty then
        (hdr ++ lnE ++
          [.print "\nNo notebooks found. Please create a notebook first."], .ok ())
      else
        match extractIds nbs with
        | .error e => (hdr ++ lnE, .error e)
        | .ok ids =>
          if ids.any (pyStrEq args.notebook) then
            let (qe, qr) := mainQueries args (.str args.notebook) qresps sid
            (hdr ++ lnE ++ qe, qr)
          else
            match nbs with
            | [] => (hdr ++ lnE, .ok ())
            | nb0 :: _ =>
              match pyIndex nb0 "id" with
              | .error e => (hdr ++ lnE, .error e)
              | .ok v =>
                let (qe, qr) := mainQueries args v qresps sid
                (hdr ++ lnE ++
                  [.print ("\nSpecified notebook not found, using: " ++ pyStr v)]
                  ++ qe, qr)

/-! Helper lemmas about trace projections. -/

lemma postPayloads_nil : postPayloads [] = [] := rfl

lemma postPayloads_cons_print (s : String) (t : List Event) :
    postPayloads (Event.print s :: t) = postPayloads t := rfl

lemma postPayloads_cons_get (u k : String) (t : List Event) :
    postPayloads (Event.getReq u k :: t) = postPayloads t := rfl

lemma postPayloads_cons_gen (s : String) (t : List Event) :
    postPayloads (Event.genSessionId s :: t) = postPayloads t := rfl

lemma postPayloads_cons_post (u k : String) (p : List (String × PyVal))
    (t : List Event) :
    postPayloads (Event.postReq u k p :: t) = p :: postPayloads t := rfl

lemma postPayloads_append (a b : List Event) :
    postPayloads (a ++ b) = postPayloads a ++ postPayloads b := by
  simp [postPayloads, List.filterMap_append]

lemma postPayloads_map_print (ls : List String) :
    postPayloads (ls.map Event.print) = [] := by
  induction ls with
  | nil => rfl
  | cons h t ih => rw [List.map_cons, postPayloads_cons_print]; exact ih

lemma genIds_nil : genIds [] = [] := rfl

lemma genIds_cons_print (s : String) (t : List Event) :
    genIds (Event.print s :: t) = genIds t := rfl

lemma genIds_cons_get (u k : String) (t : List Event) :
    genIds (Event.getReq u k :: t) = genIds t := rfl

lemma genIds_cons_gen (s : String) (t : List Event) :
    genIds (Event.genSessionId s :: t) = s :: genIds t := rfl

lemma genIds_cons_post (u k : String) (p : List (String × PyVal))
    (t : List Event) :
    genIds (Event.postReq u k p :: t) = genIds t := rfl

lemma genIds_append (a b : List Event) :
    genIds (a ++ b) = genIds a ++ genIds b := by
  simp [genIds, List.filterMap_append]

lemma genIds_map_print (ls : List String) :
    genIds (ls.map Event.print) = [] := by
  induction ls with
  | nil => rfl
  | cons h t ih => rw [List.map_cons, genIds_cons_print]; exact ih

/-! Helper lemmas about the executors. -/

lemma postPayloads_query_stateless (u k : String) (nid : PyVal) (q : String)
    (model : Option String) (tk : Option Int) (ms : Int) (re sr : Bool)
    (r : HttpResponse) :
    postPayloads (query_stateless u k nid q model tk ms re sr r).1
      = [statelessPayload nid q model tk ms re sr] := by
  unfold query_stateless
  by_cases hs : (r.status == 200) = true
  · rcases hrl : renderStatelessLines r.json with ⟨ls, err⟩
    cases err <;>
      simp [hs, hrl, postPayloads_append, postPayloads_map_print,
        postPayloads_cons_post, postPayloads_cons_print, postPayloads_nil]
  · simp [Bool.not_eq_true] at hs
    simp [hs, postPayloads_append, postPayloads_map_print,
      postPayloads_cons_post, postPayloads_cons_print, postPayloads_nil]

lemma genIds_query_stateless (u k : String) (nid : PyVal) (q : String)
    (model : Option String) (tk : Option Int) (ms : Int) (re sr : Bool)
    (r : HttpResponse) :
    genIds (query_stateless u k nid q model tk ms re sr r).1 = [] := by
  unfold query_stateless
  by_cases hs : (r.status == 200) = true
  · rcases hrl : renderStatelessLines r.json with ⟨ls, err⟩
    cases err <;>
      simp [hs, hrl, genIds_append, genIds_map_print,
        genIds_cons_post, genIds_cons_print, genIds_nil]
  · simp [Bool.not_eq_true] at hs
    simp [hs, genIds_append, genIds_map_print,
      genIds_cons_post, genIds_cons_print, genIds_nil]

lemma lookup_notebook_id_statelessPayload (nid : PyVal) (q : String)
    (model : Option String) (tk : Option Int) (ms : Int) (re sr : Bool) :
    List.lookup "notebook_id" (statelessPayload nid q model tk ms re sr)
      = some nid := rfl

lemma lookup_fields_conversationalPayload (nid : PyVal) (q sid : String)
    (model : Option String) (mh : Int) :
    List.lookup "notebook_id" (conversationalPayload nid q sid model mh) = some nid ∧
    List.lookup "query" (conversationalPayload nid q sid model mh) = some (.str q) ∧
    List.lookup "session_id" (conversationalPayload nid q sid model mh) = some (.str sid) ∧
    List.lookup "max_sources" (conversationalPayload nid q sid model mh) = some (.int 2) ∧
    List.lookup "max_history" (conversationalPayload nid q sid model mh) = some (.int mh) :=
  ⟨rfl, rfl, rfl, rfl, rfl⟩

/-- Core invariant of the conversational turn loop: when every remaining
turn either fails (non-200) or renders without an exception, the loop raises
nothing, issues exactly one request per query in list order, generates no
session identifier, and prints the status and body of every failed turn. -/
lemma convLoop_spec (u k : String) (nid : PyVal) (model : Option String)
    (mh : Int) (sid : String) :
    ∀ (qs : List String) (i : Nat) (resps : Nat → HttpResponse),
      (∀ n, n < qs.length → convTurnOk (resps n) = true) →
      (convLoop u k nid model mh sid i qs resps).2 = none ∧
      postPayloads (convLoop u k nid model mh sid i qs resps).1
        = qs.map (fun q => conversationalPayload nid q sid model mh) ∧
      genIds (convLoop u k nid model mh sid i qs resps).1 = [] ∧
      (∀ n, n < qs.length → ¬((resps n).status = 200) →
        Event.print ("Error: " ++ toString (resps n).status ++ " - " ++ (resps n).text)
          ∈ (convLoop u k nid model mh sid i qs resps).1) := by
  intro qs
  induction qs with
  | nil =>
    intro i resps _
    refine ⟨rfl, rfl, rfl, ?_⟩
    intro n hn
    exact absurd hn (by simp)
  | cons q rest ih =>
    intro i resps h
    have h0 : convTurnOk (resps 0) = true := h 0 (by simp)
    have hrest : ∀ n, n < rest.length →
        convTurnOk ((fun n => resps (n + 1)) n) = true := by
      intro n hn
      exact h (n + 1) (by simpa using Nat.succ_lt_succ hn)
    obtain ⟨ih1, ih2, ih3, ih4⟩ := ih (i + 1) (fun n => resps (n + 1)) hrest
    rcases hcl : convLoop u k nid model mh sid (i + 1) rest (fun n => resps (n + 1))
      with ⟨tl, err2⟩
    rw [hcl] at ih1 ih2 ih3 ih4
    simp only [] at ih1 ih2 ih3 ih4
    by_cases hs : (resps 0).status = 200
    · have hb : ((resps 0).status == 200) = true := by simpa using hs
      have hr : (renderConvLines (resps 0).json).2 = none := by
        simpa [convTurnOk, hb, Option.isNone_iff_eq_none] using h0
      rcases hrc : renderConvLines (resps 0).json with ⟨ls, err⟩
      rw [hrc] at hr
      subst hr
      refine ⟨?_, ?_, ?_, ?_⟩
      · have h1 : err2 = none := ih1
        simp [convLoop, hb, hrc, hcl, h1]
      · simp [convLoop, hb, hrc, hcl, postPayloads_append, postPayloads_map_print,
          postPayloads_cons_post, postPayloads_cons_print, postPayloads_nil, ih2]
      · simp [convLoop, hb, hrc, hcl, genIds_append, genIds_map_print,
          genIds_cons_post, genIds_cons_print, genIds_nil, ih3]
      · intro n hn hne
        cases n with
        | zero => exact absurd hs hne
        | succ m =>
          have hm : m < rest.length := by simpa using hn
          have hmem : Event.print ("Error: " ++ toString (resps (m + 1)).status
              ++ " - " ++ (resps (m + 1)).text) ∈ tl :=
            ih4 m hm (by simpa using hne)
          simp [convLoop, hb, hrc, hcl, hmem]
    · have hb : ((resps 0).status == 200) = false := by simpa using hs
      refine ⟨?_, ?_, ?_, ?_⟩
      · have h1 : err2 = none := ih1
        simp [convLoop, hb, hcl, h1]
      · simp [convLoop, hb, hcl, postPayloads_append, postPayloads_map_print,
          postPayloads_cons_post, postPayloads_cons_print, postPayloads_nil, ih2]
      · simp [convLoop, hb, hcl, genIds_append, genIds_map_print,
          genIds_cons_post, genIds_cons_print, genIds_nil, ih3]
      · intro n hn hne
        cases n with
        | zero => simp [convLoop, hb, hcl]
        | succ m =>
          have hm : m < rest.length := by simpa using hn
          have hmem : Event.print ("Error: " ++ toString (resps (m + 1)).status
              ++ " - " ++ (resps (m + 1)).text) ∈ tl :=
            ih4 m hm (by simpa using hne)
          simp [convLoop, hb, hcl, hmem]

/-- Every request the turn loop ever issues carries a payload built by
conversationalPayload for one of the queries (regardless of failures or
rendering exceptions). -/
lemma convLoop_posts_shape (u k : String) (nid : PyVal) (model : Option String)
    (mh : Int) (sid : String) :
    ∀ (qs : List String) (i : Nat) (resps : Nat → HttpResponse)
      (p : List (String × PyVal)),
      p ∈ postPayloads (convLoop u k nid model mh sid i qs resps).1 →
      ∃ q, p = conversationalPayload nid q sid model mh := by
  intro qs
  induction qs with
  | nil =>
    intro i resps p hp
    simp [convLoop, postPayloads_nil] at hp
  | cons q rest ih =>
    intro i resps p hp
    by_cases hs : (resps 0).status = 200
    · have hb : ((resps 0).status == 200) = true := by simpa using hs
      rcases hrc : renderConvLines (resps 0).json with ⟨ls, err⟩
      cases err with
      | some e =>
        simp [convLoop, hb, hrc, postPayloads_append, postPayloads_map_print,
          postPayloads_cons_post, postPayloads_cons_print, postPayloads_nil] at hp
        exact ⟨q, hp⟩
      | none =>
        rcases hcl : convLoop u k nid model mh sid (i + 1) rest (fun n => resps (n + 1))
          with ⟨tl, err2⟩
        simp [convLoop, hb, hrc, hcl, postPayloads_append, postPayloads_map_print,
          postPayloads_cons_post, postPayloads_cons_print, postPayloads_nil] at hp
        rcases hp with hp | hp
        · exact ⟨q, hp⟩
        · exact ih (i + 1) (fun n => resps (n + 1)) p (by rw [hcl]; exact hp)
    · have hb : ((resps 0).status == 200) = false := by simpa using hs
      rcases hcl : convLoop u k nid model mh sid (i + 1) rest (fun n => resps (n + 1))
        with ⟨tl, err2⟩
      simp [convLoop, hb, hcl, postPayloads_append, postPayloads_map_print,
        postPayloads_cons_post, postPayloads_cons_print, postPayloads_nil] at hp
      rcases hp with hp | hp
      · exact ⟨q, hp⟩
      · exact ih (i + 1) (fun n => resps (n + 1)) p (by rw [hcl]; exact hp)

/-- Every request issued by query_conversational carries a payload built by
conversationalPayload for one of the queries. -/
lemma query_conversational_posts_shape (u k : String) (nid : PyVal)
    (qs : List String) (model : Option String) (mh : Int) (sid : String)
    (resps : Nat → HttpResponse) (p : List (String × PyVal)) :
    p ∈ postPayloads (query_conversational u k nid qs model mh sid resps).1 →
    ∃ q, p = conversationalPayload nid q sid model mh := by
  intro hp
  rcases hcl : convLoop u k nid model mh sid 1 qs resps with ⟨tl, err⟩
  simp [query_conversational, hcl, postPayloads_append, postPayloads_map_print,
    postPayloads_cons_post, postPayloads_cons_print, postPayloads_cons_gen,
    postPayloads_nil] at hp
  exact convLoop_posts_shape u k nid model mh sid qs 1 resps p (by rw [hcl]; exact hp)

/-- query_conversational generates its session identifier exactly once. -/
lemma genIds_query_conversational (u k : String) (nid : PyVal)
    (qs : List String) (model : Option String) (mh : Int) (sid : String)
    (resps : Nat → HttpResponse)
    (h : ∀ n, n < qs.length → convTurnOk (resps n) = true) :
    genIds (query_conversational u k nid qs model mh sid resps).1 = [sid] := by
  obtain ⟨-, -, h3, -⟩ := convLoop_spec u k nid model mh sid qs 1 resps h
  rcases hcl : convLoop u k nid model mh sid 1 qs resps with ⟨tl, err⟩
  rw [hcl] at h3
  simp [query_conversational, hcl, genIds_append, genIds_map_print,
    genIds_cons_post, genIds_cons_print, genIds_cons_gen, genIds_nil]
  exact h3

/-- list_notebooks issues no POST request. -/
lemma postPayloads_list_notebooks (u k : String) (r : HttpResponse) :
    postPayloads (list_notebooks u k r).1 = [] := by
  unfold list_notebooks
  by_cases hs : (r.status == 200) = true
  · rcases hnl : notebookLines (pyAsList (pyGet r.json "notebooks" (.list [])))
      with ⟨ls, err⟩
    cases err <;>
      simp [hs, hnl, postPayloads_append, postPayloads_map_print,
        postPayloads_cons_get, postPayloads_cons_print, postPayloads_nil]
  · simp [Bool.not_eq_true] at hs
    simp [hs, postPayloads_append, postPayloads_map_print,
      postPayloads_cons_get, postPayloads_cons_print, postPayloads_nil]

/-- list_notebooks generates no session identifier. -/
lemma genIds_list_notebooks (u k : String) (r : HttpResponse) :
    genIds (list_notebooks u k r).1 = [] := by
  unfold list_notebooks
  by_cases hs : (r.status == 200) = true
  · rcases hnl : notebookLines (pyAsList (pyGet r.json "notebooks" (.list [])))
      with ⟨ls, err⟩
    cases err <;>
      simp [hs, hnl, genIds_append, genIds_map_print,
        genIds_cons_get, genIds_cons_print, genIds_nil]
  · simp [Bool.not_eq_true] at hs
    simp [hs, genIds_append, genIds_map_print,
      genIds_cons_get, genIds_cons_print, genIds_nil]

/-- Every request issued by the demo part of main carries the resolved
notebook id in its notebook_id field. -/
lemma mainDemo_posts (args : Args) (nbId : PyVal) (qresps : Nat → HttpResponse)
    (sid : String) (idx : Nat) (p : List (String × PyVal))
    (hp : p ∈ postPayloads (mainDemo args nbId qresps sid idx).1) :
    List.lookup "notebook_id" p = some nbId := by
  unfold mainDemo at hp
  by_cases hd : args.no_demo
  · simp [hd, finalBlock, postPayloads_map_print, postPayloads_cons_print,
      postPayloads_nil] at hp
  · rcases h2 : query_stateless args.url args.api_key nbId
      "What are the key policies mentioned in the documents?" args.model
      args.top_k args.max_sources (!args.no_reranker) (!args.include_raptor)
      (qresps idx) with ⟨e2, r2⟩
    have he2 : postPayloads e2 = [statelessPayload nbId
        "What are the key policies mentioned in the documents?" args.model
        args.top_k args.max_sources (!args.no_reranker) (!args.include_raptor)] := by
      have := postPayloads_query_stateless args.url args.api_key nbId
        "What are the key policies mentioned in the documents?" args.model
        args.top_k args.max_sources (!args.no_reranker) (!args.include_raptor)
        (qresps idx)
      rw [h2] at this
      exact this
    cases r2 with
    | error e =>
      simp [hd, h2, he2] at hp
      subst hp
      exact lookup_notebook_id_statelessPayload nbId _ _ _ _ _ _
    | ok v =>
      rcases h3 : query_conversational args.url args.api_key nbId demoQueries
        args.model args.max_history sid (fun n => qresps (idx + 1 + n))
        with ⟨e3, x3⟩
      have he3 : ∀ pp, pp ∈ postPayloads e3 →
          ∃ q, pp = conversationalPayload nbId q sid args.model args.max_history := by
        intro pp hpp
        exact query_conversational_posts_shape args.url args.api_key nbId
          demoQueries args.model args.max_history sid
          (fun n => qresps (idx + 1 + n)) pp (by rw [h3]; exact hpp)
      cases x3 with
      | some e =>
        simp [hd, h2, h3, he2, postPayloads_append] at hp
        rcases hp with hp | hp
        · subst hp
          exact lookup_notebook_id_statelessPayload nbId _ _ _ _ _ _
        · obtain ⟨q, hq⟩ := he3 p hp
          subst hq
          exact (lookup_fields_conversationalPayload nbId q sid args.model
            args.max_history).1
      | none =>
        simp [hd, h2, h3, he2, finalBlock, postPayloads_append,
          postPayloads_map_print, postPayloads_cons_print, postPayloads_nil] at hp
        rcases hp with hp | hp
        · subst hp
          exact lookup_notebook_id_statelessPayload nbId _ _ _ _ _ _
        · obtain ⟨q, hq⟩ := he3 p hp
          subst hq
          exact (lookup_fields_conversationalPayload nbId q sid args.model
            args.max_history).1

/-- Every request issued by the query part of main carries the resolved
notebook id in its notebook_id field. -/
lemma mainQueries_posts (args : Args) (nbId : PyVal) (qresps : Nat → HttpResponse)
    (sid : String) (p : List (String × PyVal))
    (hp : p ∈ postPayloads (mainQueries args nbId qresps sid).1) :
    List.lookup "notebook_id" p = some nbId := by
  unfold mainQueries at hp
  cases hq : args.query with
  | none =>
    rw [hq] at hp
    exact mainDemo_posts args nbId qresps sid 0 p hp
  | some q =>
    rw [hq] at hp
    by_cases hqe : (q == "") = true
    · simp [hqe] at hp
      exact mainDemo_posts args nbId qresps sid 0 p hp
    · rcases h1 : query_stateless args.url args.api_key nbId q args.model
        args.top_k args.max_sources (!args.no_reranker) (!args.include_raptor)
        (qresps 0) with ⟨e1, r1⟩
      have he1 : postPayloads e1 = [statelessPayload nbId q args.model
          args.top_k args.max_sources (!args.no_reranker) (!args.include_raptor)] := by
        have := postPayloads_query_stateless args.url args.api_key nbId q
          args.model args.top_k args.max_sources (!args.no_reranker)
          (!args.include_raptor) (qresps 0)
        rw [h1] at this
        exact this
      have hqe2 : (q == "") = false := by simpa using hqe
      cases r1 with
      | error e =>
        simp [hqe2, h1, he1] at hp
        subst hp
        exact lookup_notebook_id_statelessPayload nbId _ _ _ _ _ _
      | ok v =>
        by_cases hnd : args.no_demo
        · simp [hqe2, h1, he1, hnd, postPayloads_append, postPayloads_map_print,
            postPayloads_cons_print, postPayloads_nil] at hp
          subst hp
          exact lookup_notebook_id_statelessPayload nbId _ _ _ _ _ _
        · rcases hmd : mainDemo args nbId qresps sid 1 with ⟨de, dr⟩
          simp [hqe2, h1, he1, hnd, hmd, postPayloads_append] at hp
          rcases hp with hp | hp
          · subst hp
            exact lookup_notebook_id_statelessPayload nbId _ _ _ _ _ _
          · exact mainDemo_posts args nbId qresps sid 1 p (by rw [hmd]; exact hp)

/-- Key presence decomposes over payload concatenation. -/
lemma hasKey_append (a b : List (String × PyVal)) (k : String) :
    hasKey (a ++ b) k = (hasKey a k || hasKey b k) := by
  induction a with
  | nil => simp [hasKey]
  | cons hd t ih =>
    rcases hd with ⟨k1, v1⟩
    by_cases hk : (k == k1) = true
    · simp [hasKey, List.lookup, hk]
    · have hk2 : (k == k1) = false := by simpa using hk
      simp only [hasKey, List.cons_append, List.lookup, hk2] at ih ⊢
      exact ih

/-- Full characterization of key presence in the stateless payload: the four
base fields are always transmitted; each optional field is transmitted
exactly when its argument is Python-truthy (model nonempty, top_k nonzero)
or, for the two switches, when they are disabled. -/
lemma hasKey_statelessPayload (nid : PyVal) (q : String) (model : Option String)
    (top_k : Option Int) (ms : Int) (re sr : Bool) :
    hasKey (statelessPayload nid q model top_k ms re sr) "notebook_id" = true ∧
    hasKey (statelessPayload nid q model top_k ms re sr) "query" = true ∧
    hasKey (statelessPayload nid q model top_k ms re sr) "include_sources" = true ∧
    hasKey (statelessPayload nid q model top_k ms re sr) "max_sources" = true ∧
    hasKey (statelessPayload nid q model top_k ms re sr) "model" = optStrTruthy model ∧
    hasKey (statelessPayload nid q model top_k ms re sr) "top_k" = optIntTruthy top_k ∧
    hasKey (statelessPayload nid q model top_k ms re sr) "reranker_enabled" = !re ∧
    hasKey (statelessPayload nid q model top_k ms re sr) "skip_raptor" = !sr := by
  rcases model with _ | m <;> rcases top_k with _ | kk <;> cases re <;> cases sr <;>
    simp only [statelessPayload, optStrTruthy, optIntTruthy, hasKey_append] <;>
    split_ifs <;>
    simp_all [hasKey, List.lookup]

/-- C1 (counterexample): the claimed iff fails — with every optional
argument left at its default (nothing supplied beyond the two required
fields), the transmitted stateless payload still contains the keys
include_sources and max_sources, fields the caller did not supply (there is
not even a parameter for include_sources, and max_sources is at its default
6), so a field can be present without the caller supplying a non-default
value for it. -/
theorem c1_sparse_payload_counterexample :
    hasKey (statelessPayload (.str "nb-1") "What is the policy?" none none 6 true true)
      "include_sources" = true ∧
    hasKey (statelessPayload (.str "nb-1") "What is the policy?" none none 6 true true)
      "max_sources" = true :=
  ⟨rfl, rfl⟩

/-- C1 (amended): in the stateless payload the four base fields notebook_id,
query, include_sources and max_sources are always transmitted (the latter
two even when the caller supplied nothing for them), while each optional
tuning field is transmitted exactly when the caller supplied a truthy
non-default value for it: model when nonempty, top_k when nonzero,
reranker_enabled exactly when reranking was disabled, skip_raptor exactly
when RAPTOR inclusion was requested. -/
theorem c1_sparse_payload_amended (nid : PyVal) (q : String)
    (model : Option String) (top_k : Option Int) (ms : Int) (re sr : Bool) :
    hasKey (statelessPayload nid q model top_k ms re sr) "notebook_id" = true ∧
    hasKey (statelessPayload nid q model top_k ms re sr) "query" = true ∧
    hasKey (statelessPayload nid q model top_k ms re sr) "include_sources" = true ∧
    hasKey (statelessPayload nid q model top_k ms re sr) "max_sources" = true ∧
    hasKey (statelessPayload nid q model top_k ms re sr) "model" = optStrTruthy model ∧
    hasKey (statelessPayload nid q model top_k ms re sr) "top_k" = optIntTruthy top_k ∧
    hasKey (statelessPayload nid q model top_k ms re sr) "reranker_enabled" = !re ∧
    hasKey (statelessPayload nid q model top_k ms re sr) "skip_raptor" = !sr :=
  hasKey_statelessPayload nid q model top_k ms re sr

/-- C2 (code-bug evaluation): on a successful (HTTP 200) response whose
single source entry lacks the score field, query_stateless does not print a
placeholder and return normally — formatting the substituted default string
with the :.3f specifier raises, and the call ends in an uncaught
ValueError instead of returning the result. -/
theorem c2_missing_score_raises :
    (query_stateless "http://localhost:7860" "key-1" (.str "nb-1")
      "What is the policy?" none none 6 true true
      ⟨200, "", .dict [("response", .str "The answer."), ("metadata", .dict []),
        ("sources", .list [.dict [("filename", .str "handbook.pdf"),
          ("snippet", .str "Employees may...")]])]⟩).2
    = Except.error "ValueError: unknown format code f for object of type str" :=
  rfl

/-- C6: with top_k unset and reranker_enabled left at its default the
stateless payload contains neither the top_k key nor the reranker_enabled
key; with top_k = 10 and reranker_enabled = False it maps top_k to 10 and
reranker_enabled to false. -/
theorem c6_top_k_reranker_roundtrip (nid : PyVal) (q : String) :
    hasKey (statelessPayload nid q none none 6 true true) "top_k" = false ∧
    hasKey (statelessPayload nid q none none 6 true true) "reranker_enabled" = false ∧
    List.lookup "top_k" (statelessPayload nid q none (some 10) 6 false true)
      = some (.int 10) ∧
    List.lookup "reranker_enabled" (statelessPayload nid q none (some 10) 6 false true)
      = some (.bool false) :=
  ⟨rfl, rfl, rfl, rfl⟩

/-- C9: for each of the three configuration values (API base URL, API key,
notebook id) the effective value after parse_args is the CLI flag when
given, else the environment variable when set, else the built-in default;
the CLI flag always wins. -/
theorem c9_config_precedence (f e : String) :
    (parseArgsUrl (some f) (some e) = f ∧ parseArgsUrl (some f) none = f ∧
     parseArgsUrl none (some e) = e ∧
     parseArgsUrl none none = "http://localhost:7860") ∧
    (parseArgsApiKey (some f) (some e) = f ∧ parseArgsApiKey (some f) none = f ∧
     parseArgsApiKey none (some e) = e ∧
     parseArgsApiKey none none = "dbn_00000000000000000000000000000001") ∧
    (parseArgsNotebook (some f) (some e) = f ∧ parseArgsNotebook (some f) none = f ∧
     parseArgsNotebook none (some e) = e ∧
     parseArgsNotebook none none = "18ee0c23-a2ce-4eb2-a56c-62a12dee964a") :=
  ⟨⟨rfl, rfl, rfl, rfl⟩, ⟨rfl, rfl, rfl, rfl⟩, ⟨rfl, rfl, rfl, rfl⟩⟩

/-- C10: supplying top_k = 0 builds exactly the same payload as not
supplying top_k at all, and the top_k key is absent, because presence is
decided by Python truthiness rather than an is-None test. -/
theorem c10_falsy_top_k_omitted (nid : PyVal) (q : String)
    (model : Option String) (ms : Int) (re sr : Bool) :
    statelessPayload nid q model (some 0) ms re sr
      = statelessPayload nid q model none ms re sr ∧
    hasKey (statelessPayload nid q model (some 0) ms re sr) "top_k" = false :=
  ⟨rfl, (hasKey_statelessPayload nid q model (some 0) ms re sr).2.2.2.2.2.1⟩

/-- The requests of query_conversational are exactly those of its turn loop. -/
lemma postPayloads_query_conversational (u k : String) (nid : PyVal)
    (qs : List String) (model : Option String) (mh : Int) (sid : String)
    (resps : Nat → HttpResponse) :
    postPayloads (query_conversational u k nid qs model mh sid resps).1
      = postPayloads (convLoop u k nid model mh sid 1 qs resps).1 := by
  rcases hcl : convLoop u k nid model mh sid 1 qs resps with ⟨tl, err⟩
  simp [query_conversational, hcl, postPayloads_append, postPayloads_map_print,
    postPayloads_cons_gen, postPayloads_cons_print, postPayloads_nil]

/-- query_conversational raises exactly when its turn loop raises. -/
lemma snd_query_conversational (u k : String) (nid : PyVal)
    (qs : List String) (model : Option String) (mh : Int) (sid : String)
    (resps : Nat → HttpResponse) :
    (query_conversational u k nid qs model mh sid resps).2
      = (convLoop u k nid model mh sid 1 qs resps).2 := by
  rcases hcl : convLoop u k nid model mh sid 1 qs resps with ⟨tl, err⟩
  simp [query_conversational, hcl]

/-- Looking up the query field across a list of conversational payloads. -/
lemma map_lookup_query_conversationalPayload (nid : PyVal) (sid : String)
    (model : Option String) (mh : Int) (l : List String) :
    l.map (fun q => List.lookup "query" (conversationalPayload nid q sid model mh))
      = l.map (fun q => some (PyVal.str q)) := by
  induction l with
  | nil => rfl
  | cons a t ih =>
    simp only [List.map_cons, ih]
    rfl

/-- C3: in a conversational run whose turns all either fail or render
cleanly, exactly one session identifier is generated for the whole run,
every issued request carries that identical session_id together with
max_sources = 2 and the max_history of the caller, and the requests are issued
in list order, one per query. -/
theorem c3_conversational_single_session (u k : String) (nid : PyVal)
    (qs : List String) (model : Option String) (mh : Int) (sid : String)
    (resps : Nat → HttpResponse)
    (h : ∀ n, n < qs.length → convTurnOk (resps n) = true) :
    genIds (query_conversational u k nid qs model mh sid resps).1 = [sid] ∧
    postPayloads (query_conversational u k nid qs model mh sid resps).1
      = qs.map (fun q => conversationalPayload nid q sid model mh) ∧
    (∀ p ∈ postPayloads (query_conversational u k nid qs model mh sid resps).1,
      List.lookup "session_id" p = some (.str sid) ∧
      List.lookup "max_sources" p = some (.int 2) ∧
      List.lookup "max_history" p = some (.int mh)) ∧
    (postPayloads (query_conversational u k nid qs model mh sid resps).1).map
        (fun p => List.lookup "query" p)
      = qs.map (fun q => some (PyVal.str q)) := by
  obtain ⟨h1, h2, h3, h4⟩ := convLoop_spec u k nid model mh sid qs 1 resps h
  have hpq := postPayloads_query_conversational u k nid qs model mh sid resps
  refine ⟨genIds_query_conversational u k nid qs model mh sid resps h, ?_, ?_, ?_⟩
  · rw [hpq, h2]
  · intro p hp
    rw [hpq, h2] at hp
    obtain ⟨q, _, rfl⟩ := List.mem_map.mp hp
    obtain ⟨-, -, f3, f4, f5⟩ := lookup_fields_conversationalPayload nid q sid model mh
    exact ⟨f3, f4, f5⟩
  · rw [hpq, h2, List.map_map]
    exact map_lookup_query_conversationalPayload nid sid model mh qs

/-- Witness for C3 at a concrete two-turn run whose turns fail. -/
theorem c3_conversational_single_session_witness :
    (∀ n, n < (["a", "b"] : List String).length →
      convTurnOk ((fun _ => ((⟨500, "boom", PyVal.dict []⟩ : HttpResponse))) n) = true) ∧
    (genIds (query_conversational "u" "k" (.str "nb") ["a", "b"] none 5 "sess"
        (fun _ => ⟨500, "boom", .dict []⟩)).1 = ["sess"] ∧
     postPayloads (query_conversational "u" "k" (.str "nb") ["a", "b"] none 5 "sess"
        (fun _ => ⟨500, "boom", .dict []⟩)).1
       = (["a", "b"] : List String).map
           (fun q => conversationalPayload (.str "nb") q "sess" none 5) ∧
     (∀ p ∈ postPayloads (query_conversational "u" "k" (.str "nb") ["a", "b"] none 5 "sess"
        (fun _ => ⟨500, "boom", .dict []⟩)).1,
       List.lookup "session_id" p = some (.str "sess") ∧
       List.lookup "max_sources" p = some (.int 2) ∧
       List.lookup "max_history" p = some (.int 5)) ∧
     (postPayloads (query_conversational "u" "k" (.str "nb") ["a", "b"] none 5 "sess"
        (fun _ => ⟨500, "boom", .dict []⟩)).1).map (fun p => List.lookup "query" p)
       = (["a", "b"] : List String).map (fun q => some (PyVal.str q))) :=
  ⟨fun _ _ => rfl,
   c3_conversational_single_session "u" "k" (.str "nb") ["a", "b"] none 5 "sess"
     (fun _ => ⟨500, "boom", .dict []⟩) (fun _ _ => rfl)⟩

/-- C7: a stateless query whose response has a non-200 status prints the
status code and response body, returns None (no exception), and issues
exactly the one request — no retry. -/
theorem c7_stateless_failure_returns_none (u k : String) (nid : PyVal)
    (q : String) (model : Option String) (tk : Option Int) (ms : Int)
    (re sr : Bool) (r : HttpResponse) (h : r.status ≠ 200) :
    (query_stateless u k nid q model tk ms re sr r).2 = Except.ok none ∧
    postPayloads (query_stateless u k nid q model tk ms re sr r).1
      = [statelessPayload nid q model tk ms re sr] ∧
    Event.print ("\nError: " ++ toString r.status ++ " - " ++ r.text)
      ∈ (query_stateless u k nid q model tk ms re sr r).1 := by
  have hb : (r.status == 200) = false := by simpa using h
  refine ⟨?_, postPayloads_query_stateless u k nid q model tk ms re sr r, ?_⟩
  · simp [query_stateless, hb]
  · simp [query_stateless, hb]

/-- Witness for C7 at a concrete 404 response. -/
theorem c7_stateless_failure_returns_none_witness :
    ((⟨404, "not found", .dict []⟩ : HttpResponse).status ≠ 200) ∧
    ((query_stateless "u" "k" (.str "nb") "q" none none 6 true true
        ⟨404, "not found", .dict []⟩).2 = Except.ok none ∧
     postPayloads (query_stateless "u" "k" (.str "nb") "q" none none 6 true true
        ⟨404, "not found", .dict []⟩).1
       = [statelessPayload (.str "nb") "q" none none 6 true true] ∧
     Event.print ("\nError: " ++ toString (404 : Int) ++ " - " ++ "not found")
       ∈ (query_stateless "u" "k" (.str "nb") "q" none none 6 true true
            ⟨404, "not found", .dict []⟩).1) :=
  ⟨by decide,
   c7_stateless_failure_returns_none "u" "k" (.str "nb") "q" none none 6 true true
     ⟨404, "not found", .dict []⟩ (by decide)⟩

/-- C8: in a conversational run whose turns all either fail or render
cleanly, every failed (non-200) turn is reported with its status code and
body, no exception is raised, and all turns are still issued — a failed
turn never aborts the remaining turns. -/
theorem c8_failed_turn_continues (u k : String) (nid : PyVal)
    (qs : List String) (model : Option String) (mh : Int) (sid : String)
    (resps : Nat → HttpResponse)
    (h : ∀ n, n < qs.length → convTurnOk (resps n) = true) :
    (query_conversational u k nid qs model mh sid resps).2 = none ∧
    postPayloads (query_conversational u k nid qs model mh sid resps).1
      = qs.map (fun q => conversationalPayload nid q sid model mh) ∧
    (∀ n, n < qs.length → (resps n).status ≠ 200 →
      Event.print ("Error: " ++ toString (resps n).status ++ " - " ++ (resps n).text)
        ∈ (query_conversational u k nid qs model mh sid resps).1) := by
  obtain ⟨h1, h2, h3, h4⟩ := convLoop_spec u k nid model mh sid qs 1 resps h
  refine ⟨?_, ?_, ?_⟩
  · rw [snd_query_conversational, h1]
  · rw [postPayloads_query_conversational, h2]
  · intro n hn hne
    have hmem := h4 n hn hne
    rcases hcl : convLoop u k nid model mh sid 1 qs resps with ⟨tl, err⟩
    rw [hcl] at hmem
    simp only [] at hmem
    simp [query_conversational, hcl, hmem]

/-- Witness for C8 at a concrete two-turn run whose turns fail. -/
theorem c8_failed_turn_continues_witness :
    (∀ n, n < (["a", "b"] : List String).length →
      convTurnOk ((fun _ => ((⟨500, "boom", PyVal.dict []⟩ : HttpResponse))) n) = true) ∧
    ((query_conversational "u" "k" (.str "nb") ["a", "b"] none 5 "sess"
        (fun _ => ⟨500, "boom", .dict []⟩)).2 = none ∧
     postPayloads (query_conversational "u" "k" (.str "nb") ["a", "b"] none 5 "sess"
        (fun _ => ⟨500, "boom", .dict []⟩)).1
       = (["a", "b"] : List String).map
           (fun q => conversationalPayload (.str "nb") q "sess" none 5) ∧
     (∀ n, n < (["a", "b"] : List String).length →
       ((fun _ => ((⟨500, "boom", PyVal.dict []⟩ : HttpResponse))) n).status ≠ 200 →
       Event.print ("Error: " ++ toString ((fun _ => ((⟨500, "boom", PyVal.dict []⟩ : HttpResponse))) n).status
           ++ " - " ++ ((fun _ => ((⟨500, "boom", PyVal.dict []⟩ : HttpResponse))) n).text)
         ∈ (query_conversational "u" "k" (.str "nb") ["a", "b"] none 5 "sess"
              (fun _ => ⟨500, "boom", .dict []⟩)).1)) :=
  ⟨fun _ _ => rfl,
   c8_failed_turn_continues "u" "k" (.str "nb") ["a", "b"] none 5 "sess"
     (fun _ => ⟨500, "boom", .dict []⟩) (fun _ _ => rfl)⟩

/-- C4: in a normal run (neither list-only flag set) whose notebook listing
comes back empty, main issues no POST /api/query request, prints the
informational message, and terminates normally rather than with an error. -/
theorem c4_empty_listing_no_query (args : Args) (listResp : HttpResponse)
    (qresps : Nat → HttpResponse) (sid : String)
    (hlm : args.list_models = false) (hln : args.list_notebooks = false)
    (hempty : (list_notebooks args.url args.api_key listResp).2 = Except.ok []) :
    postPayloads (mainRun args listResp qresps sid).1 = [] ∧
    Event.print "\nNo notebooks found. Please create a notebook first."
      ∈ (mainRun args listResp qresps sid).1 ∧
    (mainRun args listResp qresps sid).2 = Except.ok () := by
  refine ⟨?_, ?_, ?_⟩
  · simp [mainRun, hlm, hln, hempty, postPayloads_append, postPayloads_map_print,
      postPayloads_list_notebooks, postPayloads_cons_print, postPayloads_nil]
  · simp [mainRun, hlm, hln, hempty]
  · simp [mainRun, hlm, hln, hempty]

/-- Witness for C4 at a concrete run with an empty listing. -/
theorem c4_empty_listing_no_query_witness :
    (Args.list_models ⟨none, "nb-1", none, "u", "k", false, false, false,
        none, 6, false, false, 5⟩ = false) ∧
    (Args.list_notebooks ⟨none, "nb-1", none, "u", "k", false, false, false,
        none, 6, false, false, 5⟩ = false) ∧
    ((list_notebooks "u" "k" ⟨200, "", .dict [("notebooks", .list [])]⟩).2
      = Except.ok []) ∧
    (postPayloads (mainRun ⟨none, "nb-1", none, "u", "k", false, false, false,
        none, 6, false, false, 5⟩ ⟨200, "", .dict [("notebooks", .list [])]⟩
        (fun _ => ⟨200, "", .dict []⟩) "sess").1 = [] ∧
     Event.print "\nNo notebooks found. Please create a notebook first."
       ∈ (mainRun ⟨none, "nb-1", none, "u", "k", false, false, false,
            none, 6, false, false, 5⟩ ⟨200, "", .dict [("notebooks", .list [])]⟩
            (fun _ => ⟨200, "", .dict []⟩) "sess").1 ∧
     (mainRun ⟨none, "nb-1", none, "u", "k", false, false, false,
        none, 6, false, false, 5⟩ ⟨200, "", .dict [("notebooks", .list [])]⟩
        (fun _ => ⟨200, "", .dict []⟩) "sess").2 = Except.ok ()) :=
  ⟨rfl, rfl, rfl,
   c4_empty_listing_no_query ⟨none, "nb-1", none, "u", "k", false, false, false,
       none, 6, false, false, 5⟩ ⟨200, "", .dict [("notebooks", .list [])]⟩
     (fun _ => ⟨200, "", .dict []⟩) "sess" rfl rfl rfl⟩

/-- C5: in a normal run whose listing is non-empty and does not contain the
requested notebook id, main prints the substitution notice naming the first
listed notebook id, and every request it goes on to issue carries that
substituted id in its notebook_id field. -/
theorem c5_notebook_substitution (args : Args) (listResp : HttpResponse)
    (qresps : Nat → HttpResponse) (sid : String) (nb0 : PyVal)
    (rest : List PyVal) (ids : List PyVal) (v : PyVal)
    (hlm : args.list_models = false) (hln : args.list_notebooks = false)
    (hnbs : (list_notebooks args.url args.api_key listResp).2
      = Except.ok (nb0 :: rest))
    (hids : extractIds (nb0 :: rest) = Except.ok ids)
    (hnf : ids.any (pyStrEq args.notebook) = false)
    (hv : pyIndex nb0 "id" = Except.ok v) :
    Event.print ("\nSpecified notebook not found, using: " ++ pyStr v)
      ∈ (mainRun args listResp qresps sid).1 ∧
    ∀ p ∈ postPayloads (mainRun args listResp qresps sid).1,
      List.lookup "notebook_id" p = some v := by
  rcases hmq : mainQueries args v qresps sid with ⟨qe, qr⟩
  refine ⟨?_, ?_⟩
  · simp [mainRun, hlm, hln, hnbs, hids, hnf, hv, hmq]
  · intro p hp
    simp [mainRun, hlm, hln, hnbs, hids, hnf, hv, hmq, postPayloads_append,
      postPayloads_list_notebooks, postPayloads_map_print,
      postPayloads_cons_print, postPayloads_nil] at hp
    exact mainQueries_posts args v qresps sid p (by rw [hmq]; exact hp)

/-- Witness for C5 at a concrete run listing one notebook with id abc while
the configured notebook id is zzz. -/
theorem c5_notebook_substitution_witness :
    (Args.list_models ⟨none, "zzz", none, "u", "k", false, false, false,
        none, 6, false, false, 5⟩ = false) ∧
    (Args.list_notebooks ⟨none, "zzz", none, "u", "k", false, false, false,
        none, 6, false, false, 5⟩ = false) ∧
    ((list_notebooks "u" "k" ⟨200, "", .dict [("notebooks", .list
        [.dict [("id", .str "abc"), ("name", .str "HR Docs"),
          ("document_count", .int 3), ("created_at", .str "2024-01-01T00:00:00Z")]])]⟩).2
      = Except.ok [.dict [("id", .str "abc"), ("name", .str "HR Docs"),
          ("document_count", .int 3), ("created_at", .str "2024-01-01T00:00:00Z")]]) ∧
    (extractIds [.dict [("id", .str "abc"), ("name", .str "HR Docs"),
        ("document_count", .int 3), ("created_at", .str "2024-01-01T00:00:00Z")]]
      = Except.ok [.str "abc"]) ∧
    (([PyVal.str "abc"].any (pyStrEq "zzz")) = false) ∧
    (pyIndex (.dict [("id", .str "abc"), ("name", .str "HR Docs"),
        ("document_count", .int 3), ("created_at", .str "2024-01-01T00:00:00Z")]) "id"
      = Except.ok (.str "abc")) ∧
    (Event.print ("\nSpecified notebook not found, using: " ++ pyStr (.str "abc"))
      ∈ (mainRun ⟨none, "zzz", none, "u", "k", false, false, false,
           none, 6, false, false, 5⟩
           ⟨200, "", .dict [("notebooks", .list
             [.dict [("id", .str "abc"), ("name", .str "HR Docs"),
               ("document_count", .int 3), ("created_at", .str "2024-01-01T00:00:00Z")]])]⟩
           (fun _ => ⟨500, "boom", .dict []⟩) "sess").1 ∧
     ∀ p ∈ postPayloads (mainRun ⟨none, "zzz", none, "u", "k", false, false, false,
           none, 6, false, false, 5⟩
           ⟨200, "", .dict [("notebooks", .list
             [.dict [("id", .str "abc"), ("name", .str "HR Docs"),
               ("document_count", .int 3), ("created_at", .str "2024-01-01T00:00:00Z")]])]⟩
           (fun _ => ⟨500, "boom", .dict []⟩) "sess").1,
       List.lookup "notebook_id" p = some (.str "abc")) :=
  ⟨rfl, rfl, rfl, rfl, rfl, rfl,
   c5_notebook_substitution ⟨none, "zzz", none, "u", "k", false, false, false,
       none, 6, false, false, 5⟩
     ⟨200, "", .dict [("notebooks", .list
       [.dict [("id", .str "abc"), ("name", .str "HR Docs"),
         ("document_count", .int 3), ("created_at", .str "2024-01-01T00:00:00Z")]])]⟩
     (fun _ => ⟨500, "boom", .dict []⟩) "sess"
     (.dict [("id", .str "abc"), ("name", .str "HR Docs"),
       ("document_count", .int 3), ("created_at", .str "2024-01-01T00:00:00Z")])
     [] [.str "abc"] (.str "abc") rfl rfl rfl rfl rfl rfl⟩
